import Mathlib

/-!
Shallow embedding of the Reddit-to-Telegram bot (`src/bot/main.py`).

The program is a single-pass batch pipeline: for each configured subreddit it
fetches top posts, filters them (dedup → recency → score threshold), sends the
survivors to a Telegram chat with retry/backoff, and persists the set of seen
post ids at the end of the run.

Modelling conventions:
* Python `float` times and ratios become `ℚ` (the comparisons and arithmetic
  the code performs are exact on the values it manipulates).
* Python exceptions become `Except` values; the retry decorator becomes an
  explicit loop over an attempt-indexed oracle `Nat → Except ε α` recording
  the result, the backoff waits and the number of calls.
* Network and sink effects become oracles passed to the orchestrator; the
  sink call actually issued by `send_post` is reified as a `SinkCall` value.
* `time.sleep` is recorded as a wait duration, not performed.
* The seen-file contents are modelled as parsed file states; the JSON list of
  strings round-trips, so `save_seen` produces the list written and
  `load_seen` consumes one.
-/

namespace RedditBot

/-- Normalized candidate item, as built by `get_top_posts` (main.py lines
194-207): a dict with keys `id` (may be `None`, from `d.get("id")`), `title`,
`score`, `ups`, `ratio`, `permalink`, `image_url` (may be `None`), `is_video`,
`is_gallery`, `flair` (may be `None`), `created_utc`.  The Python `ratio`
field is named `ratioQ` here. -/
structure Post where
  id : Option String
  title : String
  score : Int
  ups : Option Int
  ratioQ : Option ℚ
  permalink : String
  image_url : Option String
  is_video : Bool
  is_gallery : Bool
  flair : Option String
  created_utc : ℚ
deriving DecidableEq

/-- `is_within_last_24h` (main.py lines 209-211): `(now - created_utc) <= 24 * 3600`.
The current time `now` (read from `time.time()` in Python) is an explicit
parameter here. -/
def is_within_last_24h (now : ℚ) (created_utc : ℚ) : Bool :=
  decide (now - created_utc ≤ 24 * 3600)

/-- `make_post_url` (main.py lines 213-214). -/
def make_post_url (permalink : String) : String :=
  "https://reddit.com" ++ permalink

/-- One character of Python `html.escape` (quote=True): `&`, `<`, `>`, `"`, `'`
are replaced by entities, all other characters kept. -/
def htmlEscapeChar (c : Char) : String :=
  if c = '&' then "&amp;"
  else if c = '<' then "&lt;"
  else if c = '>' then "&gt;"
  else if c = Char.ofNat 34 then "&quot;"
  else if c = Char.ofNat 39 then "&#x27;"
  else String.singleton c

/-- Python `html.escape(s)` as used by `build_caption`. -/
def htmlEscape (s : String) : String :=
  String.join (s.data.map htmlEscapeChar)

/-- Python `int()` on a rational: truncation toward zero. -/
def pyInt (q : ℚ) : Int :=
  if 0 ≤ q then ⌊q⌋ else ⌈q⌉

/-- The `upvote_percent` computed in `build_caption` (main.py line 230):
`int(ratio * 100)`. -/
def upvote_percent (r : ℚ) : Int :=
  pyInt (r * 100)

/-- The literal prefix before the flair in the caption (main.py line 224,
the bytes of the source file). -/
def flairIcon : String := "üè∑Ô∏è"

/-- The literal prefix before "Link to post" (main.py line 226). -/
def linkIcon : String := "üîó"

/-- The literal prefix before the score (main.py lines 231 and 233). -/
def upIcon : String := "‚¨ÜÔ∏è"

/-- `build_caption` (main.py lines 216-235).  `flair` is appended only when
truthy (non-`None` and non-empty); the vote detail line carries the
percentage only when both `ups` and `ratio` are not `None`. -/
def build_caption (title : String) (score : Int) (post_url : String)
    (ups : Option Int) (rq : Option ℚ) (flair : Option String) : String :=
  let safe_title := htmlEscape title
  let c1 := safe_title
  let c2 := match flair with
    | some fl =>
      if fl = "" then c1 else c1 ++ "\n" ++ flairIcon ++ " " ++ htmlEscape fl
    | none => c1
  let c3 := c2 ++ "\n<a href=\"" ++ post_url ++ "\">" ++ linkIcon ++ " Link to post</a>"
  match ups, rq with
  | some _, some r =>
    c3 ++ "\n" ++ upIcon ++ " " ++ toString score ++ " (" ++
      toString (upvote_percent r) ++ "% upvoted)"
  | _, _ => c3 ++ "\n" ++ upIcon ++ " " ++ toString score

/-- Modelled from the spec: the caption exactly as `build_caption`, except
that the upvoted-percentage is computed as `round(ratio × 100)` (rounding to
the nearest integer), as §4.4 of the spec words it.  Used only to compare the
spec's wording against the code's `int(ratio * 100)`. -/
def build_caption_spec_round (title : String) (score : Int) (post_url : String)
    (ups : Option Int) (rq : Option ℚ) (flair : Option String) : String :=
  let safe_title := htmlEscape title
  let c1 := safe_title
  let c2 := match flair with
    | some fl =>
      if fl = "" then c1 else c1 ++ "\n" ++ flairIcon ++ " " ++ htmlEscape fl
    | none => c1
  let c3 := c2 ++ "\n<a href=\"" ++ post_url ++ "\">" ++ linkIcon ++ " Link to post</a>"
  match ups, rq with
  | some _, some r =>
    c3 ++ "\n" ++ upIcon ++ " " ++ toString score ++ " (" ++
      toString (round (r * 100) : Int) ++ "% upvoted)"
  | _, _ => c3 ++ "\n" ++ upIcon ++ " " ++ toString score

/-- Parsed state of the seen file, as `load_seen` (main.py lines 57-66)
distinguishes it: missing file, unreadable/corrupt file, JSON that is a list
of ids, or JSON of any other shape. -/
inductive SeenFileData where
  | missing
  | unreadable
  | jsonList (ids : List String)
  | jsonOther
deriving DecidableEq

/-- `load_seen` (main.py lines 57-66): a JSON list becomes the set of its
elements; a missing, unreadable or non-list file yields the empty set. -/
def load_seen : SeenFileData → Finset String
  | .jsonList ids => ids.toFinset
  | _ => ∅

/-- `save_seen` (main.py lines 68-74): serializes the set as a flat JSON list
(`json.dump(list(seen), f)`).  Python enumerates the set in an unspecified
order; we fix the sorted enumeration as the representative order. -/
def save_seen (seen : Finset String) : List String :=
  seen.sort (fun a b => a ≤ b)

/-- Outcome of the retry wrapper `retry_with_backoff` (main.py lines 77-116):
the wrapped call returned a value, the last attempt's exception propagated,
or the loop fell through (Python `return None`, reachable only when
`retries = 0`). -/
inductive RetryOutcome (ε α : Type) where
  | ok (a : α)
  | raised (e : ε)
  | fellThrough
deriving DecidableEq

/-- Execution trace of one `retry_with_backoff`-wrapped call: the outcome,
the list of `time.sleep` waits performed (in order), and how many times the
wrapped function was invoked. -/
structure RetryTrace (ε α : Type) where
  result : RetryOutcome ε α
  waits : List Nat
  calls : Nat
deriving DecidableEq

/-- The retry loop body (main.py lines 85-96 / 101-112): `for i in
range(retries)`, recursing on the number of remaining iterations
(`fuel = retries - i`).  `op i` is the outcome of the `i`-th invocation of
the wrapped function: a value is returned at once; the exception of attempt
`i = retries - 1` is re-raised; any earlier exception is logged, the loop
waits `backoff_in_seconds * 2 ** i`, and retries.  Exhausting the loop
without returning (possible only when `retries = 0`) is Python's
`return None`. -/
def retryLoop {ε α : Type} (op : Nat → Except ε α) (backoff_in_seconds : Nat)
    (retries : Nat) : Nat → Nat → RetryTrace ε α
  | _, 0 => ⟨.fellThrough, [], 0⟩
  | i, fuel + 1 =>
    match op i with
    | .ok a => ⟨.ok a, [], 1⟩
    | .error e =>
      if i = retries - 1 then ⟨.raised e, [], 1⟩
      else
        let rest := retryLoop op backoff_in_seconds retries (i + 1) fuel
        ⟨rest.result, backoff_in_seconds * 2 ^ i :: rest.waits, rest.calls + 1⟩

/-- `retry_with_backoff(retries, backoff_in_seconds)` applied to an
operation: run the loop from attempt 0 with `retries` iterations ahead. -/
def retry_with_backoff {ε α : Type} (retries : Nat) (backoff_in_seconds : Nat)
    (op : Nat → Except ε α) : RetryTrace ε α :=
  retryLoop op backoff_in_seconds retries 0 retries

/-- `true` exactly on `Except.ok`. -/
def except_ok {ε α : Type} : Except ε α → Bool
  | .ok _ => true
  | .error _ => false

/-- What one attempt of `get_top_posts` can raise: a transport fault from
`requests.get` or a JSON decode error from `r.json()`. -/
inductive FetchError where
  | transport
  | malformedJson
deriving DecidableEq

/-- Result of one HTTP request to the subreddit endpoint: the transport
raised, or a response with a status code and (when the body is valid JSON) a
parsed list of posts.  The per-item normalization of main.py lines 135-207 is
total (every field access carries a default), so a well-formed body is
modelled directly as the resulting `List Post`. -/
inductive HttpResult where
  | transportError
  | response (status : Nat) (body : Option (List Post))

/-- One attempt of `get_top_posts` (main.py lines 118-208): a transport error
raises; a non-200 status returns `[]`; a 200 response with a malformed body
raises from `r.json()`; otherwise the parsed posts are returned. -/
def get_top_posts_attempt : HttpResult → Except FetchError (List Post)
  | .transportError => .error .transport
  | .response status body =>
    if status ≠ 200 then .ok []
    else
      match body with
      | none => .error .malformedJson
      | some posts => .ok posts

/-- `get_top_posts` as decorated with `@retry_with_backoff(retries=3,
backoff_in_seconds=1)`: the `i`-th attempt performs the request `net i`. -/
def get_top_posts (net : Nat → HttpResult) : RetryTrace FetchError (List Post) :=
  retry_with_backoff 3 1 (fun i => get_top_posts_attempt (net i))

/-- A call issued to the Telegram sink by `send_post`: either
`bot.send_message(chat_id, text, parse_mode=HTML, disable_web_page_preview)`
or `bot.send_photo(chat_id, photo, caption, parse_mode=HTML)`. -/
inductive SinkCall where
  | sendMessage (chat_id : String) (text : String)
      (parse_mode_html : Bool) (disable_web_page_preview : Bool)
  | sendPhoto (chat_id : String) (photo : String) (caption : String)
      (parse_mode_html : Bool)
deriving DecidableEq

/-- The literal video icon prefix (main.py line 248, with trailing space). -/
def videoIcon : String := "üé• "

/-- The literal gallery icon prefix (main.py line 250, with trailing space). -/
def galleryIcon : String := "üì∑ "

/-- The sink call made by one attempt of `send_post` (main.py lines 237-264):
prefix the title with a media icon for video/gallery, build the caption, then
send video/gallery posts as a text message with link preview enabled
(`disable_web_page_preview=False`), posts with a truthy `image_url` as a
photo with the caption, and everything else as a text message with link
preview enabled. -/
def send_post_call (chat_id : String) (post : Post) : SinkCall :=
  let post_url := make_post_url post.permalink
  let title0 := post.title
  let title :=
    if post.is_video then videoIcon ++ title0
    else if post.is_gallery then galleryIcon ++ title0
    else title0
  let caption := build_caption title post.score post_url post.ups post.ratioQ post.flair
  if post.is_video || post.is_gallery then
    .sendMessage chat_id caption true false
  else
    match post.image_url with
    | some u =>
      if u = "" then .sendMessage chat_id caption true false
      else .sendPhoto chat_id u caption true
    | none => .sendMessage chat_id caption true false

/-- The overall outcome of `send_post` for one post, as the orchestrator sees
it: `send_post` is wrapped by `retry_with_backoff(retries=3,
backoff_in_seconds=1)`; `attempts i` is whether the `i`-th delivery attempt
raised.  A `.raised` trace is the propagated exception; `.ok` and the
unreachable fall-through (Python `return None`) both return normally. -/
def send_post_outcome {ε : Type} (attempts : Nat → Except ε Unit) : Except ε Unit :=
  match (retry_with_backoff 3 1 attempts).result with
  | .ok _ => .ok ()
  | .raised e => .error e
  | .fellThrough => .ok ()

/-- The per-source candidate loop of `main` (main.py lines 279-296), starting
from the working set `ns` (`new_seen`): for each post, skip when the id is
missing or empty (`if not pid`), when the id is in the *loaded* set `seen`,
when the post is older than 24h, or when the score is below the threshold;
otherwise deliver via `send_post` and on success add the id to `new_seen`.
`deliver p i` is whether the `i`-th delivery attempt for post `p` raised.
Returns the final working set, the ids delivered in order, and the exception
that aborted the loop (if any). -/
def processSource {ε : Type} (deliver : Post → Nat → Except ε Unit) (now : ℚ)
    (seen : Finset String) (threshold : Int) :
    List Post → Finset String → Finset String × List String × Option ε
  | [], ns => (ns, [], none)
  | p :: rest, ns =>
    match p.id with
    | none => processSource deliver now seen threshold rest ns
    | some pid =>
      if pid = "" then processSource deliver now seen threshold rest ns
      else if pid ∈ seen then processSource deliver now seen threshold rest ns
      else if is_within_last_24h now p.created_utc = false then
        processSource deliver now seen threshold rest ns
      else if p.score < threshold then processSource deliver now seen threshold rest ns
      else
        match send_post_outcome (fun i => deliver p i) with
        | .error e => (ns, [], some e)
        | .ok _ =>
          let r := processSource deliver now seen threshold rest (insert pid ns)
          (r.1, pid :: r.2.1, r.2.2)

/-- The per-subreddit loop of `main` (main.py lines 275-296): for each
`(sub, threshold)` pair in configuration order, fetch the posts and run the
candidate loop.  `fetch sub` is the overall outcome of `get_top_posts(sub)`
(which, being retry-wrapped, either returns a list or propagates an
exception).  An exception from fetch or delivery propagates immediately,
abandoning the remaining posts and sources. -/
def runSources {ε : Type} (fetch : String → Except ε (List Post))
    (deliver : Post → Nat → Except ε Unit) (now : ℚ) (seen : Finset String) :
    List (String × Int) → Finset String → Finset String × List String × Option ε
  | [], ns => (ns, [], none)
  | (sub, threshold) :: rest, ns =>
    match fetch sub with
    | .error e => (ns, [], some e)
    | .ok posts =>
      let r := processSource deliver now seen threshold posts ns
      match r.2.2 with
      | some _ => r
      | none =>
        let r2 := runSources fetch deliver now seen rest r.1
        (r2.1, r.2.1 ++ r2.2.1, r2.2.2)

/-- Observable outcome of one invocation of `main`: the final working set
`new_seen`, the ids delivered in order, the exception that aborted the run
(if any), and the list handed to `save_seen` (or `none` when `save_seen` was
not called). -/
structure RunResult (ε : Type) where
  new_seen : Finset String
  delivered : List String
  fault : Option ε
  saved : Option (List String)
deriving DecidableEq

/-- `main` (main.py lines 268-300) given the loaded seen set: run the sources
starting from `new_seen = set(seen)`; an exception propagates out of `main`
before reaching the save (there is no try/finally), so `save_seen` runs only
when no exception occurred, and then only `if new_seen != seen`. -/
def mainRun {ε : Type} (fetch : String → Except ε (List Post))
    (deliver : Post → Nat → Except ε Unit) (now : ℚ) (seenLoaded : Finset String)
    (config : List (String × Int)) : RunResult ε :=
  let r := runSources fetch deliver now seenLoaded config seenLoaded
  match r.2.2 with
  | some e => ⟨r.1, r.2.1, some e, none⟩
  | none =>
    ⟨r.1, r.2.1, none,
      if r.1 = seenLoaded then none else some (save_seen r.1)⟩

/-! Helper lemmas about the orchestrator loops. -/

/-- The candidate loop only adds ids: its final working set is the starting
set united with the ids it delivered. -/
theorem processSource_new_seen_eq {ε : Type} (deliver : Post → Nat → Except ε Unit)
    (now : ℚ) (seen : Finset String) (threshold : Int) :
    ∀ (posts : List Post) (ns : Finset String),
      (processSource deliver now seen threshold posts ns).1 =
        ns ∪ (processSource deliver now seen threshold posts ns).2.1.toFinset := by
  intro posts
  induction posts with
  | nil => intro ns; simp [processSource]
  | cons p rest ih =>
    intro ns
    cases hid : p.id with
    | none => simp [processSource, hid, ih ns]
    | some pid =>
      by_cases h1 : pid = ""
      · simp [processSource, hid, h1, ih ns]
      · by_cases h2 : pid ∈ seen
        · simp [processSource, hid, h1, h2, ih ns]
        · cases h3 : is_within_last_24h now p.created_utc with
          | false => simp [processSource, hid, h1, h2, h3, ih ns]
          | true =>
            by_cases h4 : p.score < threshold
            · simp [processSource, hid, h1, h2, h3, h4, ih ns]
            · cases hs : send_post_outcome (fun i => deliver p i) with
              | error e => simp [processSource, hid, h1, h2, h3, h4, hs]
              | ok u =>
                simp [processSource, hid, h1, h2, h3, h4, hs,
                  ih (insert pid ns), Finset.insert_union, Finset.union_insert]

/-- The candidate loop never removes an id from the working set. -/
theorem processSource_start_subset {ε : Type} (deliver : Post → Nat → Except ε Unit)
    (now : ℚ) (seen : Finset String) (threshold : Int)
    (posts : List Post) (ns : Finset String) :
    ns ⊆ (processSource deliver now seen threshold posts ns).1 := by
  rw [processSource_new_seen_eq]
  exact Finset.subset_union_left

/-- Every id the candidate loop delivers was not in the loaded seen set and
is non-empty. -/
theorem processSource_delivered_mem {ε : Type} (deliver : Post → Nat → Except ε Unit)
    (now : ℚ) (seen : Finset String) (threshold : Int) :
    ∀ (posts : List Post) (ns : Finset String) (x : String),
      x ∈ (processSource deliver now seen threshold posts ns).2.1 →
        x ∉ seen ∧ x ≠ "" := by
  intro posts
  induction posts with
  | nil => intro ns x hx; simp [processSource] at hx
  | cons p rest ih =>
    intro ns x hx
    cases hid : p.id with
    | none =>
      rw [show processSource deliver now seen threshold (p :: rest) ns =
          processSource deliver now seen threshold rest ns by
        simp [processSource, hid]] at hx
      exact ih ns x hx
    | some pid =>
      by_cases h1 : pid = ""
      · rw [show processSource deliver now seen threshold (p :: rest) ns =
            processSource deliver now seen threshold rest ns by
          simp [processSource, hid, h1]] at hx
        exact ih ns x hx
      · by_cases h2 : pid ∈ seen
        · rw [show processSource deliver now seen threshold (p :: rest) ns =
              processSource deliver now seen threshold rest ns by
            simp [processSource, hid, h1, h2]] at hx
          exact ih ns x hx
        · cases h3 : is_within_last_24h now p.created_utc with
          | false =>
            rw [show processSource deliver now seen threshold (p :: rest) ns =
                processSource deliver now seen threshold rest ns by
              simp [processSource, hid, h1, h2, h3]] at hx
            exact ih ns x hx
          | true =>
            by_cases h4 : p.score < threshold
            · rw [show processSource deliver now seen threshold (p :: rest) ns =
                  processSource deliver now seen threshold rest ns by
                simp [processSource, hid, h1, h2, h3, h4]] at hx
              exact ih ns x hx
            · cases hs : send_post_outcome (fun i => deliver p i) with
              | error e =>
                simp [processSource, hid, h1, h2, h3, h4, hs] at hx
              | ok u =>
                simp only [processSource, hid, h1, h2, h3, h4, hs] at hx
                simp at hx
                rcases hx with hx | hx
                · subst hx; exact ⟨h2, h1⟩
                · exact ih (insert pid ns) x hx

/-- The per-subreddit loop only adds ids: its final working set is the
starting set united with the ids it delivered. -/
theorem runSources_new_seen_eq {ε : Type} (fetch : String → Except ε (List Post))
    (deliver : Post → Nat → Except ε Unit) (now : ℚ) (seen : Finset String) :
    ∀ (config : List (String × Int)) (ns : Finset String),
      (runSources fetch deliver now seen config ns).1 =
        ns ∪ (runSources fetch deliver now seen config ns).2.1.toFinset := by
  intro config
  induction config with
  | nil => intro ns; simp [runSources]
  | cons st rest ih =>
    intro ns
    obtain ⟨sub, threshold⟩ := st
    cases hf : fetch sub with
    | error e => simp [runSources, hf]
    | ok posts =>
      cases hr : (processSource deliver now seen threshold posts ns).2.2 with
      | some e =>
        simp [runSources, hf, hr, processSource_new_seen_eq]
      | none =>
        simp [runSources, hf, hr, List.toFinset_append, ← Finset.union_assoc,
          ← processSource_new_seen_eq,
          ih (processSource deliver now seen threshold posts ns).1]

/-- The per-subreddit loop never removes an id from the working set. -/
theorem runSources_start_subset {ε : Type} (fetch : String → Except ε (List Post))
    (deliver : Post → Nat → Except ε Unit) (now : ℚ) (seen : Finset String)
    (config : List (String × Int)) (ns : Finset String) :
    ns ⊆ (runSources fetch deliver now seen config ns).1 := by
  rw [runSources_new_seen_eq]
  exact Finset.subset_union_left

/-- Every id the run delivers was not in the loaded seen set and is
non-empty. -/
theorem runSources_delivered_mem {ε : Type} (fetch : String → Except ε (List Post))
    (deliver : Post → Nat → Except ε Unit) (now : ℚ) (seen : Finset String) :
    ∀ (config : List (String × Int)) (ns : Finset String) (x : String),
      x ∈ (runSources fetch deliver now seen config ns).2.1 →
        x ∉ seen ∧ x ≠ "" := by
  intro config
  induction config with
  | nil => intro ns x hx; simp [runSources] at hx
  | cons st rest ih =>
    intro ns x hx
    obtain ⟨sub, threshold⟩ := st
    cases hf : fetch sub with
    | error e => simp [runSources, hf] at hx
    | ok posts =>
      cases hr : (processSource deliver now seen threshold posts ns).2.2 with
      | some e =>
        simp only [runSources, hf, hr] at hx
        exact processSource_delivered_mem deliver now seen threshold posts ns x hx
      | none =>
        simp only [runSources, hf, hr, List.mem_append] at hx
        rcases hx with hx | hx
        · exact processSource_delivered_mem deliver now seen threshold posts ns x hx
        · exact ih (processSource deliver now seen threshold posts ns).1 x hx

/-- The fields of `mainRun` in terms of the source loop. -/
theorem mainRun_fields {ε : Type} (fetch : String → Except ε (List Post))
    (deliver : Post → Nat → Except ε Unit) (now : ℚ) (seenLoaded : Finset String)
    (config : List (String × Int)) :
    (mainRun fetch deliver now seenLoaded config).new_seen =
      (runSources fetch deliver now seenLoaded config seenLoaded).1 ∧
    (mainRun fetch deliver now seenLoaded config).delivered =
      (runSources fetch deliver now seenLoaded config seenLoaded).2.1 ∧
    (mainRun fetch deliver now seenLoaded config).fault =
      (runSources fetch deliver now seenLoaded config seenLoaded).2.2 := by
  unfold mainRun
  cases hr : (runSources fetch deliver now seenLoaded config seenLoaded).2.2 with
  | none => simp [hr]
  | some e => simp [hr]

/-- The final working set of a run is the loaded set united with the
delivered ids. -/
theorem mainRun_new_seen_eq {ε : Type} (fetch : String → Except ε (List Post))
    (deliver : Post → Nat → Except ε Unit) (now : ℚ) (seenLoaded : Finset String)
    (config : List (String × Int)) :
    (mainRun fetch deliver now seenLoaded config).new_seen =
      seenLoaded ∪ (mainRun fetch deliver now seenLoaded config).delivered.toFinset := by
  obtain ⟨h1, h2, _⟩ := mainRun_fields fetch deliver now seenLoaded config
  rw [h1, h2]
  exact runSources_new_seen_eq fetch deliver now seenLoaded config seenLoaded

/-- A candidate that fails one of the orchestrator's checks (missing/empty
id, already seen, stale, or below threshold) is dropped with no state change,
and processing continues with the next candidate. -/
theorem processSource_skip {ε : Type} (deliver : Post → Nat → Except ε Unit)
    (now : ℚ) (seen : Finset String) (threshold : Int)
    (p : Post) (rest : List Post) (ns : Finset String)
    (h : p.id = none ∨ ∃ pid, p.id = some pid ∧
      (pid = "" ∨ pid ∈ seen ∨ is_within_last_24h now p.created_utc = false ∨
        p.score < threshold)) :
    processSource deliver now seen threshold (p :: rest) ns =
      processSource deliver now seen threshold rest ns := by
  rcases h with hid | ⟨pid, hid, hskip⟩
  · simp [processSource, hid]
  · by_cases h1 : pid = ""
    · simp [processSource, hid, h1]
    · by_cases h2 : pid ∈ seen
      · simp [processSource, hid, h1, h2]
      · cases h3 : is_within_last_24h now p.created_utc with
        | false => simp [processSource, hid, h1, h2, h3]
        | true =>
          have h4 : p.score < threshold := by
            rcases hskip with hc | hc | hc | hc
            · exact absurd hc h1
            · exact absurd hc h2
            · rw [h3] at hc; exact absurd hc (by simp)
            · exact hc
          simp [processSource, hid, h1, h2, h3, h4]

/-! Claim theorems. -/

/-- Claim C9: persisting a DedupSet and loading it back yields the original
set of identifiers (persist followed by load is the identity up to
ordering). -/
theorem seen_roundtrip :
    ∀ s : Finset String, load_seen (SeenFileData.jsonList (save_seen s)) = s := by
  intro s
  simp [load_seen, save_seen, Finset.sort_toFinset]

/-- Claim C6: a candidate passes the recency filter iff
`now − created_utc ≤ 24` hours, with the boundary inclusive, and a candidate
with `now − created_utc > 24` hours is skipped by the orchestrator with no
state change, regardless of its score. -/
theorem recency_filter_iff :
    (∀ now created_utc : ℚ,
      is_within_last_24h now created_utc = true ↔ now - created_utc ≤ 24 * 3600) ∧
    (∀ (ε : Type) (deliver : Post → Nat → Except ε Unit) (now : ℚ)
        (seen : Finset String) (threshold : Int) (p : Post) (rest : List Post)
        (ns : Finset String) (pid : String),
      p.id = some pid → pid ≠ "" → pid ∉ seen →
      ¬ now - p.created_utc ≤ 24 * 3600 →
      processSource deliver now seen threshold (p :: rest) ns =
        processSource deliver now seen threshold rest ns) := by
  constructor
  · intro now created_utc
    simp [is_within_last_24h]
  · intro ε deliver now seen threshold p rest ns pid hid h1 h2 h3
    apply processSource_skip
    exact Or.inr ⟨pid, hid,
      Or.inr (Or.inr (Or.inl (by simp [is_within_last_24h, h3])))⟩

/-- Claim C10: a fetched candidate whose id is missing (`None`) or empty is
skipped before the dedup/recency/threshold checks with no state change and
processing continues with the next candidate; consequently every delivered
id is non-empty, and the empty id is never added to the working set. -/
theorem missing_id_skipped :
    (∀ (ε : Type) (deliver : Post → Nat → Except ε Unit) (now : ℚ)
        (seen : Finset String) (threshold : Int) (p : Post) (rest : List Post)
        (ns : Finset String),
      p.id = none ∨ p.id = some "" →
      processSource deliver now seen threshold (p :: rest) ns =
        processSource deliver now seen threshold rest ns) ∧
    (∀ (ε : Type) (fetch : String → Except ε (List Post))
        (deliver : Post → Nat → Except ε Unit) (now : ℚ)
        (seenLoaded : Finset String) (config : List (String × Int)) (x : String),
      x ∈ (mainRun fetch deliver now seenLoaded config).delivered → x ≠ "") ∧
    (∀ (ε : Type) (fetch : String → Except ε (List Post))
        (deliver : Post → Nat → Except ε Unit) (now : ℚ)
        (seenLoaded : Finset String) (config : List (String × Int)),
      "" ∉ seenLoaded →
      "" ∉ (mainRun fetch deliver now seenLoaded config).new_seen) := by
  refine ⟨?_, ?_, ?_⟩
  · intro ε deliver now seen threshold p rest ns h
    apply processSource_skip
    rcases h with h | h
    · exact Or.inl h
    · exact Or.inr ⟨"", h, Or.inl rfl⟩
  · intro ε fetch deliver now seenLoaded config x hx
    rw [(mainRun_fields fetch deliver now seenLoaded config).2.1] at hx
    exact (runSources_delivered_mem fetch deliver now seenLoaded config seenLoaded x hx).2
  · intro ε fetch deliver now seenLoaded config hs hmem
    rw [mainRun_new_seen_eq, Finset.mem_union] at hmem
    rcases hmem with hmem | hmem
    · exact hs hmem
    · rw [List.mem_toFinset] at hmem
      rw [(mainRun_fields fetch deliver now seenLoaded config).2.1] at hmem
      exact (runSources_delivered_mem fetch deliver now seenLoaded config seenLoaded
        "" hmem).2 rfl

/-- Claim C8: a candidate classified as video (and likewise as gallery) is
delivered by the text-message send with link preview enabled
(`disable_web_page_preview=False`) and the media icon prefixed to the title,
never by the photo upload; a classified image (truthy `image_url`) is sent
via the photo operation with the caption attached. -/
theorem send_policy_by_media_kind :
    ∀ (chat_id : String) (post : Post),
      (post.is_video = true →
        send_post_call chat_id post =
          .sendMessage chat_id
            (build_caption (videoIcon ++ post.title) post.score
              (make_post_url post.permalink) post.ups post.ratioQ post.flair)
            true false) ∧
      (post.is_video = false → post.is_gallery = true →
        send_post_call chat_id post =
          .sendMessage chat_id
            (build_caption (galleryIcon ++ post.title) post.score
              (make_post_url post.permalink) post.ups post.ratioQ post.flair)
            true false) ∧
      (post.is_video = false → post.is_gallery = false →
        ∀ u, post.image_url = some u → u ≠ "" →
          send_post_call chat_id post =
            .sendPhoto chat_id u
              (build_caption post.title post.score (make_post_url post.permalink)
                post.ups post.ratioQ post.flair)
              true) := by
  intro chat_id post
  refine ⟨?_, ?_, ?_⟩
  · intro hv
    simp [send_post_call, hv]
  · intro hv hg
    simp [send_post_call, hv, hg]
  · intro hv hg u hu hne
    simp [send_post_call, hv, hg, hu, hne]

/-- Claim C3 (amended): the upvoted-percentage in the caption is
`int(ratio * 100)`, i.e. truncation toward zero, which for the nonnegative
ratios that occur is `⌊ratio × 100⌋` — not rounding to the nearest
integer. -/
theorem upvote_percent_truncates :
    ∀ r : ℚ, 0 ≤ r → upvote_percent r = ⌊r * 100⌋ := by
  intro r hr
  have : (0 : ℚ) ≤ r * 100 := mul_nonneg hr (by norm_num)
  simp [upvote_percent, pyInt, this]

/-- Claim C3's statement fails on the code: at `ratio = 0.999` the caption
built by the code carries `99% upvoted` (truncation), while
`round(ratio × 100) = 100`, so the produced caption differs from the
spec-worded one. -/
theorem caption_percent_not_round_cex :
    upvote_percent (999 / 1000) = 99 ∧
    (round ((999 / 1000 : ℚ) * 100) : Int) = 100 ∧
    build_caption "t" 1 "u" (some 9) (some (999 / 1000)) none ≠
      build_caption_spec_round "t" 1 "u" (some 9) (some (999 / 1000)) none := by
  have h1 : upvote_percent (999 / 1000) = 99 := by
    norm_num [upvote_percent, pyInt]
  have h2 : (round ((999 / 1000 : ℚ) * 100) : Int) = 100 := by
    norm_num [round_eq]
  refine ⟨h1, h2, ?_⟩
  simp only [build_caption, build_caption_spec_round, h1, h2]
  decide

/-- Witness for `upvote_percent_truncates` at `ratio = 0.999`. -/
theorem upvote_percent_truncates_witness :
    (0 : ℚ) ≤ 999 / 1000 ∧ upvote_percent (999 / 1000) = ⌊(999 / 1000 : ℚ) * 100⌋ :=
  ⟨by norm_num, upvote_percent_truncates (999 / 1000) (by norm_num)⟩

/-- Claim C4: the working DedupSet only grows — the loaded set is contained
in the final set, the working set passed along the candidate loop is never
shrunk — and an id belongs to the final set iff it was loaded or its
delivery completed without raising after the retry wrapper (the `delivered`
trace records exactly the sends whose retry-wrapped outcome did not
raise). -/
theorem dedup_set_growth :
    ∀ (ε : Type) (fetch : String → Except ε (List Post))
      (deliver : Post → Nat → Except ε Unit) (now : ℚ)
      (seenLoaded : Finset String) (config : List (String × Int)),
      seenLoaded ⊆ (mainRun fetch deliver now seenLoaded config).new_seen ∧
      (∀ (threshold : Int) (posts : List Post) (ns : Finset String),
        ns ⊆ (processSource deliver now seenLoaded threshold posts ns).1) ∧
      (∀ x, x ∈ (mainRun fetch deliver now seenLoaded config).new_seen ↔
        x ∈ seenLoaded ∨ x ∈ (mainRun fetch deliver now seenLoaded config).delivered) := by
  intro ε fetch deliver now seenLoaded config
  refine ⟨?_, ?_, ?_⟩
  · rw [mainRun_new_seen_eq]
    exact Finset.subset_union_left
  · intro threshold posts ns
    exact processSource_start_subset deliver now seenLoaded threshold posts ns
  · intro x
    rw [mainRun_new_seen_eq, Finset.mem_union, List.mem_toFinset]

/-- Claim C5: a candidate whose id is already in the loaded DedupSet is never
delivered (regardless of its score or recency), the id stays in the final
set, and any persisted list still contains it. -/
theorem seen_item_not_redelivered :
    ∀ (ε : Type) (fetch : String → Except ε (List Post))
      (deliver : Post → Nat → Except ε Unit) (now : ℚ)
      (seenLoaded : Finset String) (config : List (String × Int)) (pid : String),
      pid ∈ seenLoaded →
      pid ∉ (mainRun fetch deliver now seenLoaded config).delivered ∧
      pid ∈ (mainRun fetch deliver now seenLoaded config).new_seen ∧
      (∀ l, (mainRun fetch deliver now seenLoaded config).saved = some l → pid ∈ l) := by
  intro ε fetch deliver now seenLoaded config pid hpid
  refine ⟨?_, ?_, ?_⟩
  · intro hmem
    rw [(mainRun_fields fetch deliver now seenLoaded config).2.1] at hmem
    exact (runSources_delivered_mem fetch deliver now seenLoaded config seenLoaded
      pid hmem).1 hpid
  · rw [mainRun_new_seen_eq]
    exact Finset.mem_union_left _ hpid
  · intro l hl
    simp only [mainRun] at hl
    rcases hr : (runSources fetch deliver now seenLoaded config seenLoaded).2.2 with _ | e
    · rw [hr] at hl
      simp only at hl
      by_cases heq : (runSources fetch deliver now seenLoaded config seenLoaded).1 = seenLoaded
      · simp [heq] at hl
      · simp only [heq, if_false] at hl
        cases hl
        rw [save_seen, Finset.mem_sort]
        exact runSources_start_subset fetch deliver now seenLoaded config seenLoaded hpid
    · rw [hr] at hl
      simp at hl

/-- Claim C7: under the retry policy with three attempts and base delay 1, an
operation failing twice then succeeding runs with exactly two backoff waits
of 1 and 2 time-units, is invoked three times, succeeds exactly once, and
(for a delivery) commits the item's id to the working set; an operation
failing on all three attempts propagates the third attempt's fault
unmodified, after the same two waits. -/
theorem retry_semantics :
    (∀ (ε α : Type) (op : Nat → Except ε α) (e0 e1 : ε) (a : α),
      op 0 = .error e0 → op 1 = .error e1 → op 2 = .ok a →
      retry_with_backoff 3 1 op = ⟨.ok a, [1, 2], 3⟩ ∧
      ((List.range 3).countP fun j => except_ok (op j)) = 1) ∧
    (∀ (ε : Type) (deliver : Post → Nat → Except ε Unit) (now : ℚ)
        (seen : Finset String) (threshold : Int) (p : Post) (rest : List Post)
        (ns : Finset String) (pid : String) (e0 e1 : ε),
      p.id = some pid → pid ≠ "" → pid ∉ seen →
      is_within_last_24h now p.created_utc = true → ¬ p.score < threshold →
      deliver p 0 = .error e0 → deliver p 1 = .error e1 → deliver p 2 = .ok () →
      pid ∈ (processSource deliver now seen threshold (p :: rest) ns).1) ∧
    (∀ (ε α : Type) (op : Nat → Except ε α) (e0 e1 e2 : ε),
      op 0 = .error e0 → op 1 = .error e1 → op 2 = .error e2 →
      retry_with_backoff 3 1 op = ⟨.raised e2, [1, 2], 3⟩) := by
  refine ⟨?_, ?_, ?_⟩
  · intro ε α op e0 e1 a h0 h1 h2
    constructor
    · simp [retry_with_backoff, retryLoop, h0, h1, h2]
    · rw [show List.range 3 = [0, 1, 2] from rfl]
      simp [h0, h1, h2, except_ok]
  · intro ε deliver now seen threshold p rest ns pid e0 e1 hid h1 h2 h3 h4 hd0 hd1 hd2
    have hout : send_post_outcome (fun i => deliver p i) = .ok () := by
      simp [send_post_outcome, retry_with_backoff, retryLoop, hd0, hd1, hd2]
    have heq : processSource deliver now seen threshold (p :: rest) ns =
        ((processSource deliver now seen threshold rest (insert pid ns)).1,
         pid :: (processSource deliver now seen threshold rest (insert pid ns)).2.1,
         (processSource deliver now seen threshold rest (insert pid ns)).2.2) := by
      simp [processSource, hid, h1, h2, h3, h4, hout]
    rw [heq]
    exact processSource_start_subset deliver now seen threshold rest (insert pid ns)
      (Finset.mem_insert_self pid ns)
  · intro ε α op e0 e1 e2 h0 h1 h2
    simp [retry_with_backoff, retryLoop, h0, h1, h2]

/-- Claim C2 (amended): on a non-success HTTP response the fetch returns an
empty sequence without raising (consuming one attempt); but a transport
fault or malformed JSON on every attempt makes the retry-wrapped fetch
re-raise the last attempt's fault to the caller, after the two backoff
waits. -/
theorem get_top_posts_error_behavior :
    (∀ (net : Nat → HttpResult) (status : Nat) (body : Option (List Post)),
      net 0 = .response status body → status ≠ 200 →
      get_top_posts net = ⟨.ok [], [], 1⟩) ∧
    (∀ (net : Nat → HttpResult) (e0 e1 e2 : FetchError),
      get_top_posts_attempt (net 0) = .error e0 →
      get_top_posts_attempt (net 1) = .error e1 →
      get_top_posts_attempt (net 2) = .error e2 →
      get_top_posts net = ⟨.raised e2, [1, 2], 3⟩) := by
  constructor
  · intro net status body hnet hst
    simp [get_top_posts, retry_with_backoff, retryLoop, hnet, get_top_posts_attempt, hst]
  · intro net e0 e1 e2 h0 h1 h2
    simp [get_top_posts, retry_with_backoff, retryLoop, h0, h1, h2]

/-- Claim C2's statement fails on the code: when every attempt suffers a
transport fault, `get_top_posts` does not return an empty sequence — the
retry wrapper re-raises the fault of the third attempt. -/
theorem get_top_posts_raises_cex :
    get_top_posts (fun _ => HttpResult.transportError) =
      ⟨.raised .transport, [1, 2], 3⟩ := by
  decide

/-- Claim C1 (amended): when a fault (from fetch or from a delivery that
exhausted its retries) aborts the run, the exception propagates out of
`main` before the save, so the DedupSet is not persisted even if it changed;
persistence happens only on fault-free runs, and then only if the set
changed. -/
theorem seen_not_persisted_on_fault :
    ∀ (ε : Type) (fetch : String → Except ε (List Post))
      (deliver : Post → Nat → Except ε Unit) (now : ℚ)
      (seenLoaded : Finset String) (config : List (String × Int)),
      ((mainRun fetch deliver now seenLoaded config).fault.isSome = true →
        (mainRun fetch deliver now seenLoaded config).saved = none) ∧
      ((mainRun fetch deliver now seenLoaded config).fault = none →
        (mainRun fetch deliver now seenLoaded config).saved =
          if (mainRun fetch deliver now seenLoaded config).new_seen = seenLoaded
          then none
          else some (save_seen (mainRun fetch deliver now seenLoaded config).new_seen)) := by
  intro ε fetch deliver now seenLoaded config
  unfold mainRun
  rcases hr : (runSources fetch deliver now seenLoaded config seenLoaded).2.2 with _ | e
  · simp [hr]
  · simp [hr]

/-! Concrete data exercising the pipeline, used by counterexamples and
witnesses.  All posts are one or two hours old relative to `now = 7200`. -/

/-- A post whose delivery will succeed. -/
def cexPostA : Post :=
  ⟨some "a", "A", 1500, some 1500, some (9 / 10), "/r/pics/a", none,
    false, false, none, 0⟩

/-- A post whose delivery will fail on every attempt. -/
def cexPostB : Post :=
  ⟨some "b", "B", 1500, some 1500, some (9 / 10), "/r/pics/b", none,
    false, false, none, 0⟩

/-- A fetch oracle returning the two posts for every source. -/
def cexFetch : String → Except String (List Post) :=
  fun _ => .ok [cexPostA, cexPostB]

/-- A delivery oracle: post "a" succeeds at once, everything else raises
"boom" on every attempt. -/
def cexDeliver : Post → Nat → Except String Unit :=
  fun p _ => if p.id = some "a" then .ok () else .error "boom"

/-- Evaluation of the concrete aborted run: "a" is delivered and added, then
"b"'s delivery exhausts its retries, the fault propagates, and `save_seen`
is never called. -/
theorem cexRun_eval :
    mainRun cexFetch cexDeliver 7200 ∅ [("pics", 1000)] =
      ⟨{"a"}, ["a"], some "boom", none⟩ := by
  have hrec : is_within_last_24h 7200 0 = true := by
    norm_num [is_within_last_24h]
  have hA : send_post_outcome (fun i => cexDeliver cexPostA i) = .ok () := by
    simp [send_post_outcome, retry_with_backoff, retryLoop, cexDeliver, cexPostA]
  have hB : send_post_outcome (fun i => cexDeliver cexPostB i) = .error "boom" := by
    simp [send_post_outcome, retry_with_backoff, retryLoop, cexDeliver, cexPostB]
  have hidA : cexPostA.id = some "a" := rfl
  have hidB : cexPostB.id = some "b" := rfl
  have hcrA : cexPostA.created_utc = 0 := rfl
  have hcrB : cexPostB.created_utc = 0 := rfl
  have hscA : cexPostA.score = 1500 := rfl
  have hscB : cexPostB.score = 1500 := rfl
  simp [mainRun, runSources, processSource, cexFetch, hidA, hidB, hcrA, hcrB,
    hscA, hscB, hrec, hA, hB]

/-- Claim C1's statement fails on the code: in the concrete aborted run the
in-memory set grew (it differs from the loaded empty set), yet nothing is
persisted, because the delivery fault propagates past the save. -/
theorem seen_persist_fault_cex :
    (mainRun cexFetch cexDeliver 7200 ∅ [("pics", 1000)]).fault = some "boom" ∧
    (mainRun cexFetch cexDeliver 7200 ∅ [("pics", 1000)]).delivered = ["a"] ∧
    (mainRun cexFetch cexDeliver 7200 ∅ [("pics", 1000)]).new_seen ≠ ∅ ∧
    (mainRun cexFetch cexDeliver 7200 ∅ [("pics", 1000)]).saved = none := by
  rw [cexRun_eval]
  refine ⟨rfl, rfl, by decide, rfl⟩

/-- A delivery oracle that always succeeds. -/
def okDeliver : Post → Nat → Except String Unit := fun _ _ => .ok ()

/-- A high-scoring post created at time 0, stale at `now = 90001`. -/
def stalePost : Post :=
  ⟨some "stale", "S", 99999, none, none, "/r/old/s", none, false, false, none, 0⟩

/-- A post with no id. -/
def noIdPost : Post :=
  ⟨none, "N", 5000, none, none, "/r/x/n", none, false, false, none, 0⟩

/-- An operation failing on attempts 0 and 1 and succeeding on attempt 2. -/
def c7opA : Nat → Except String Unit :=
  fun i => if i < 2 then .error "fail" else .ok ()

/-- An operation failing on every attempt. -/
def c7opB : Nat → Except String Unit := fun _ => .error "fail"

/-- A passing candidate for the retry scenario. -/
def c7post : Post :=
  ⟨some "c7", "T", 2000, none, none, "/r/x/c7", none, false, false, none, 0⟩

/-- A network oracle always answering with a non-success status. -/
def c2netNon200 : Nat → HttpResult := fun _ => .response 404 none

/-- A network oracle always answering 200 with a malformed body. -/
def c2netMalformed : Nat → HttpResult := fun _ => .response 200 none

/-- A classified video post. -/
def videoPost : Post :=
  ⟨some "v", "V", 1200, none, none, "/r/videos/v", none, true, false, none, 0⟩

/-- A classified gallery post. -/
def galleryPost : Post :=
  ⟨some "g", "G", 1200, some 1100, some (87 / 100), "/r/pics/g", none,
    false, true, none, 0⟩

/-- A classified image post with flair. -/
def imagePost : Post :=
  ⟨some "i", "I", 1200, some 1100, some (87 / 100), "/r/pics/i",
    some "https://i.redd.it/x.jpg", false, false, some "Flair", 0⟩

/-- Witness for `seen_not_persisted_on_fault` on the concrete aborted run. -/
theorem seen_not_persisted_on_fault_witness :
    (mainRun cexFetch cexDeliver 7200 ∅ [("pics", 1000)]).saved = none :=
  (seen_not_persisted_on_fault String cexFetch cexDeliver 7200 ∅ [("pics", 1000)]).1
    (by rw [cexRun_eval]; rfl)

/-- Witness for `get_top_posts_error_behavior`: a 404 yields `[]` at once; a
permanently malformed body raises after two waits. -/
theorem get_top_posts_error_behavior_witness :
    get_top_posts c2netNon200 = ⟨.ok [], [], 1⟩ ∧
    get_top_posts c2netMalformed = ⟨.raised .malformedJson, [1, 2], 3⟩ :=
  ⟨get_top_posts_error_behavior.1 c2netNon200 404 none rfl (by decide),
   get_top_posts_error_behavior.2 c2netMalformed
     .malformedJson .malformedJson .malformedJson rfl rfl rfl⟩

/-- Witness for `seen_item_not_redelivered` with `"a"` already seen. -/
theorem seen_item_not_redelivered_witness :
    ("a" : String) ∈ ({"a"} : Finset String) ∧
    ("a" ∉ (mainRun cexFetch cexDeliver 7200 {"a"} [("pics", 1000)]).delivered ∧
      "a" ∈ (mainRun cexFetch cexDeliver 7200 {"a"} [("pics", 1000)]).new_seen ∧
      ∀ l, (mainRun cexFetch cexDeliver 7200 {"a"} [("pics", 1000)]).saved = some l →
        "a" ∈ l) :=
  ⟨by decide,
   seen_item_not_redelivered String cexFetch cexDeliver 7200 {"a"} [("pics", 1000)]
     "a" (by decide)⟩

/-- Witness for `recency_filter_iff`: the 24-hour boundary is inclusive, and
a 25-hour-old high-scoring post is skipped. -/
theorem recency_filter_iff_witness :
    is_within_last_24h 86400 0 = true ∧
    processSource okDeliver 90001 ∅ 0 [stalePost] ∅ =
      processSource okDeliver 90001 ∅ 0 [] ∅ :=
  ⟨(recency_filter_iff.1 86400 0).mpr (by norm_num),
   recency_filter_iff.2 String okDeliver 90001 ∅ 0 stalePost [] ∅ "stale" rfl
     (by decide) (by simp)
     (by rw [show stalePost.created_utc = (0 : ℚ) from rfl]; norm_num)⟩

/-- Witness for `retry_semantics` on concrete operations. -/
theorem retry_semantics_witness :
    (retry_with_backoff 3 1 c7opA = ⟨.ok (), [1, 2], 3⟩ ∧
      ((List.range 3).countP fun j => except_ok (c7opA j)) = 1) ∧
    "c7" ∈ (processSource (fun _ i => c7opA i) 0 ∅ 0 [c7post] ∅).1 ∧
    retry_with_backoff 3 1 c7opB = ⟨.raised "fail", [1, 2], 3⟩ :=
  ⟨retry_semantics.1 String Unit c7opA "fail" "fail" () rfl rfl rfl,
   retry_semantics.2.1 String (fun _ i => c7opA i) 0 ∅ 0 c7post [] ∅ "c7"
     "fail" "fail" rfl (by decide) (by simp)
     (by rw [show c7post.created_utc = (0 : ℚ) from rfl]; norm_num [is_within_last_24h])
     (by decide) rfl rfl rfl,
   retry_semantics.2.2 String Unit c7opB "fail" "fail" "fail" rfl rfl rfl⟩

/-- Witness for `send_policy_by_media_kind` on concrete posts of each
kind. -/
theorem send_policy_by_media_kind_witness :
    send_post_call "chat" videoPost =
      .sendMessage "chat"
        (build_caption (videoIcon ++ videoPost.title) videoPost.score
          (make_post_url videoPost.permalink) videoPost.ups videoPost.ratioQ
          videoPost.flair)
        true false ∧
    send_post_call "chat" galleryPost =
      .sendMessage "chat"
        (build_caption (galleryIcon ++ galleryPost.title) galleryPost.score
          (make_post_url galleryPost.permalink) galleryPost.ups galleryPost.ratioQ
          galleryPost.flair)
        true false ∧
    send_post_call "chat" imagePost =
      .sendPhoto "chat" "https://i.redd.it/x.jpg"
        (build_caption imagePost.title imagePost.score
          (make_post_url imagePost.permalink) imagePost.ups imagePost.ratioQ
          imagePost.flair)
        true :=
  ⟨(send_policy_by_media_kind "chat" videoPost).1 rfl,
   (send_policy_by_media_kind "chat" galleryPost).2.1 rfl rfl,
   (send_policy_by_media_kind "chat" imagePost).2.2 rfl rfl
     "https://i.redd.it/x.jpg" rfl (by decide)⟩

/-- Witness for `missing_id_skipped`: an id-less candidate is skipped, a
delivered id is non-empty, and the empty id is not added. -/
theorem missing_id_skipped_witness :
    processSource okDeliver 0 ∅ 0 [noIdPost] ∅ =
      processSource okDeliver 0 ∅ 0 [] ∅ ∧
    ("a" : String) ≠ "" ∧
    "" ∉ (mainRun cexFetch cexDeliver 7200 ∅ [("pics", 1000)]).new_seen :=
  ⟨missing_id_skipped.1 String okDeliver 0 ∅ 0 noIdPost [] ∅ (Or.inl rfl),
   missing_id_skipped.2.1 String cexFetch cexDeliver 7200 ∅ [("pics", 1000)] "a"
     (by rw [cexRun_eval]; decide),
   missing_id_skipped.2.2 String cexFetch cexDeliver 7200 ∅ [("pics", 1000)]
     (by decide)⟩

end RedditBot
